import Mathlib

/-!
# Shader source parsing and GPU program building (`Wroggle/src/Application.cpp`)

A shallow embedding of `ParseShader`, `GLClearError`, `GLLogCall`, the `GLCall`
wrapper, `CompileShader` and `CreateShader`, followed by the properties proved
about them.

* Texts are lists of characters; `std::string::npos` is `none`.
* A file is the text it holds, or nothing when it cannot be opened.
* The graphics driver is a parameter: a state machine with one transition per
  entry point.  A piece of the program maps a driver state to its run: the
  driver calls it issued, in order and with what each returned, the text it
  wrote to `std::cout`, and the way it ended.
* `__debugbreak()` ends the run.  The loop of `GLClearError` is given a number
  of iterations; a run that needs more ends as `hang`.
* Handles are natural numbers, `int` results are integers; no arithmetic is
  done on either.
-/

namespace Wroggle

/-! ## Text primitives of the C++ standard library used by `ParseShader` -/

/-- The line terminator. -/
def newline : Char := Char.ofNat 10

/-- The character that ends a C string. -/
def nul : Char := Char.ofNat 0

/-- `hay.find(needle)`: the least position at which `needle` occurs in `hay`,
`none` standing for `std::string::npos`. -/
def find (needle : List Char) : List Char → Option Nat
  | [] => if needle.isPrefixOf [] then some 0 else none
  | c :: t => if needle.isPrefixOf (c :: t) then some 0 else (find needle t).map (· + 1)

/-- One `std::getline(stream, line)` on the unread characters of a stream:
characters are extracted up to and including the first line terminator, which
is dropped; the call fails (`none`) when nothing at all could be extracted. -/
def getline : List Char → Option (List Char × List Char)
  | [] => none
  | c :: t =>
    if c = newline then some ([], t)
    else
      match getline t with
      | none => some ([c], [])
      | some (l, rest) => some (c :: l, rest)

/-- The lines delivered by the loop `while (std::getline(stream, line))`, with
`cur` the characters of the line being extracted so far. -/
def getlinesFrom (cur : List Char) : List Char → List (List Char)
  | [] => if cur.isEmpty then [] else [cur]
  | c :: t => if c = newline then cur :: getlinesFrom [] t else getlinesFrom (cur ++ [c]) t

/-- All lines of a text, as successive `std::getline` calls deliver them. -/
def getlines (text : List Char) : List (List Char) := getlinesFrom [] text

/-! ## `ParseShader` -/

/-- The `enum class ShaderType` local to `ParseShader`. -/
inductive ShaderType
  | NONE
  | VERTEX
  | FRAGMENT
  deriving DecidableEq, Repr

/-- The result type `ShaderProgramSource`. -/
structure ShaderProgramSource where
  VertexSource : List Char
  FragmentSource : List Char
  deriving DecidableEq, Repr

/-- The variables of `ParseShader` that live across loop iterations: the mode
`type` and the two string streams `ss[0]`, `ss[1]`. -/
structure ParseState where
  type : ShaderType
  ss0 : List Char
  ss1 : List Char
  deriving DecidableEq, Repr

/-- The state before the first line is read. -/
def ParseState.init : ParseState := ⟨ShaderType.NONE, [], []⟩

/-- One iteration of the `while` loop body of `ParseShader` on `line`. -/
def parseLine (st : ParseState) (line : List Char) : ParseState :=
  if find "#shader".toList line ≠ none then
    if find "vertex".toList line ≠ none then
      { st with type := ShaderType.VERTEX }
    else if find "fragment".toList line ≠ none then
      { st with type := ShaderType.FRAGMENT }
    else st
  else if st.type ≠ ShaderType.NONE then
    match st.type with
    | ShaderType.VERTEX => { st with ss0 := st.ss0 ++ line ++ [newline] }
    | ShaderType.FRAGMENT => { st with ss1 := st.ss1 ++ line ++ [newline] }
    | ShaderType.NONE => st
  else st

/-- The whole loop, run over the lines the stream delivers. -/
def parseLines (st : ParseState) (lines : List (List Char)) : ParseState :=
  lines.foldl parseLine st

/-- The statement `return { ss[0].str(), ss[1].str() }`. -/
def ParseState.result (st : ParseState) : ShaderProgramSource := ⟨st.ss0, st.ss1⟩

/-- The lines an `std::ifstream` delivers: those of the file when it could be
opened, none when it could not (every `getline` on a failed stream fails). -/
def streamLines : Option (List Char) → List (List Char)
  | none => []
  | some text => getlines text

/-- `ParseShader` as a function of the lines its stream delivers. -/
def ParseShaderLines (lines : List (List Char)) : ShaderProgramSource :=
  (parseLines ParseState.init lines).result

/-- `ParseShader` on the stream opened for the path: `none` when the path
cannot be opened for reading, `some text` when it holds `text`. -/
def ParseShaderStream (stream : Option (List Char)) : ShaderProgramSource :=
  ParseShaderLines (streamLines stream)

/-- `ParseShader(filepath)`, the file system being a lookup from paths to the
content of the readable files. -/
def ParseShader (fs : List Char → Option (List Char)) (filepath : List Char) :
    ShaderProgramSource :=
  ParseShaderStream (fs filepath)

/-- `ParseShader` on a file that exists and holds `text`. -/
def ParseShaderText (text : List Char) : ShaderProgramSource :=
  ParseShaderStream (some text)


/-! ## Vocabulary of the specification of the parser -/

/-- The line contains the marker `#shader`. -/
def hasMarker (l : List Char) : Bool := decide ("#shader".toList <:+: l)

/-- The line contains the word `vertex`. -/
def hasVertex (l : List Char) : Bool := decide ("vertex".toList <:+: l)

/-- The line contains the word `fragment`. -/
def hasFragment (l : List Char) : Bool := decide ("fragment".toList <:+: l)

/-- A section-switching directive: a line containing `#shader` and also
`vertex` or `fragment`. -/
def isSwitch (l : List Char) : Bool := hasMarker l && (hasVertex l || hasFragment l)

/-- The nearest section-switching directive among the lines `pre` that precede
a line, if there is one. -/
def nearestSwitch (pre : List (List Char)) : Option (List Char) :=
  pre.reverse.find? isSwitch

/-- The line `l`, preceded by the lines `pre`, belongs to the vertex output: it
does not contain `#shader` and its nearest preceding section-switching
directive contains `vertex`. -/
def vertexLine (pre : List (List Char)) (l : List Char) : Bool :=
  !hasMarker l &&
    match nearestSwitch pre with
    | some d => hasVertex d
    | none => false

/-- The line `l`, preceded by the lines `pre`, belongs to the fragment output:
it does not contain `#shader` and its nearest preceding section-switching
directive does not contain `vertex` and contains `fragment`. -/
def fragmentLine (pre : List (List Char)) (l : List Char) : Bool :=
  !hasMarker l &&
    match nearestSwitch pre with
    | some d => !hasVertex d && hasFragment d
    | none => false

/-- The concatenation, in original order, of `line ++ "\n"` for exactly the
lines of `lines` whose position `i` satisfies `sel (lines before i) (line i)`. -/
def selectedText (sel : List (List Char) → List Char → Bool) (lines : List (List Char)) :
    List Char :=
  ((List.range lines.length).filter fun i => sel (lines.take i) (lines.getD i [])).flatMap
    fun i => lines.getD i [] ++ [newline]

/-- The text whose lines are `lines`, each followed by a line terminator. -/
def unlines (lines : List (List Char)) : List Char :=
  lines.flatMap fun l => l ++ [newline]

/-! ## The graphics driver, seen from the program

The driver is not part of the program: it is a parameter, a state machine with
one transition per entry point the program uses.  Values the C interface hands
back through pointers are results here.
-/

/-- `GL_NO_ERROR`. -/
def GL_NO_ERROR : Nat := 0

/-- `GL_FALSE`. -/
def GL_FALSE : Int := 0

/-- `GL_FRAGMENT_SHADER`. -/
def GL_FRAGMENT_SHADER : Nat := 0x8B30

/-- `GL_VERTEX_SHADER`. -/
def GL_VERTEX_SHADER : Nat := 0x8B31

/-- `GL_COMPILE_STATUS`. -/
def GL_COMPILE_STATUS : Nat := 0x8B81

/-- `GL_INFO_LOG_LENGTH`. -/
def GL_INFO_LOG_LENGTH : Nat := 0x8B84

/-- The entry points of the driver that `CompileShader` and `CreateShader`
reach, over a driver state `σ`. -/
structure Driver (σ : Type) where
  glGetError : σ → Nat × σ
  glCreateShader : Nat → σ → Nat × σ
  glShaderSource : Nat → List Char → σ → σ
  glCompileShader : Nat → σ → σ
  glGetShaderiv : Nat → Nat → σ → Int × σ
  glGetShaderInfoLog : Nat → Int → σ → List Char × σ
  glDeleteProgram : Nat → σ → σ
  glCreateProgram : σ → Nat × σ
  glAttachShader : Nat → Nat → σ → σ
  glLinkProgram : Nat → σ → σ
  glValidateProgram : Nat → σ → σ
  glDeleteShader : Nat → σ → σ

/-- The routine of the program from which a `glGetError` is issued. -/
inductive Site
  | clear
  | log
  deriving DecidableEq, Repr

/-- One call into the driver, with its arguments and with what it returned. -/
inductive Call
  | glGetError (site : Site) (ret : Nat)
  | glCreateShader (type : Nat) (ret : Nat)
  | glShaderSource (id : Nat) (src : List Char)
  | glCompileShader (id : Nat)
  | glGetShaderiv (id : Nat) (pname : Nat) (ret : Int)
  | glGetShaderInfoLog (id : Nat) (maxLength : Int) (ret : List Char)
  | glDeleteProgram (id : Nat)
  | glCreateProgram (ret : Nat)
  | glAttachShader (program : Nat) (shader : Nat)
  | glLinkProgram (program : Nat)
  | glValidateProgram (program : Nat)
  | glDeleteShader (shader : Nat)
  deriving DecidableEq, Repr

/-- How a piece of the program ends: it returns `val` leaving the driver in
state `s`, it stops in `__debugbreak()`, or the loop of `GLClearError` has not
ended within the iterations allowed. -/
inductive Outcome (σ α : Type)
  | ok (val : α) (s : σ)
  | trap
  | hang
  deriving DecidableEq, Repr

/-- What running a piece of the program does: the driver calls issued, in
order, the text written to `std::cout`, and how it ends. -/
structure Run (σ α : Type) where
  calls : List Call
  out : List Char
  outcome : Outcome σ α
  deriving DecidableEq, Repr

/-- A piece of the program: from a driver state to its run. -/
def Prog (σ α : Type) : Type := σ → Run σ α

/-- Returning a value without touching the driver. -/
def Prog.pure {σ α : Type} (a : α) : Prog σ α := fun s => ⟨[], [], Outcome.ok a s⟩

/-- Sequencing: the second piece runs only when the first returns. -/
def Prog.bind {σ α β : Type} (m : Prog σ α) (f : α → Prog σ β) : Prog σ β := fun s =>
  match (m s).outcome with
  | Outcome.ok a s1 =>
    ⟨(m s).calls ++ (f a s1).calls, (m s).out ++ (f a s1).out, (f a s1).outcome⟩
  | Outcome.trap => ⟨(m s).calls, (m s).out, Outcome.trap⟩
  | Outcome.hang => ⟨(m s).calls, (m s).out, Outcome.hang⟩

instance {σ : Type} : Monad (Prog σ) where
  pure := Prog.pure
  bind := Prog.bind

/-- A driver call that returns a value. -/
def callRet {σ α : Type} (mk : α → Call) (f : σ → α × σ) : Prog σ α := fun s =>
  ⟨[mk (f s).1], [], Outcome.ok (f s).1 (f s).2⟩

/-- A driver call that returns nothing. -/
def callVoid {σ : Type} (c : Call) (f : σ → σ) : Prog σ Unit := fun s =>
  ⟨[c], [], Outcome.ok () (f s)⟩

/-- Writing to `std::cout`. -/
def cout {σ : Type} (text : List Char) : Prog σ Unit := fun s =>
  ⟨[], text, Outcome.ok () s⟩

/-- The intrinsic `__debugbreak()`. -/
def debugbreak {σ α : Type} : Prog σ α := fun _ => ⟨[], [], Outcome.trap⟩

/-- Running out of the iterations allowed to a loop. -/
def outOfFuel {σ α : Type} : Prog σ α := fun _ => ⟨[], [], Outcome.hang⟩

/-! ## `GLClearError`, `GLLogCall`, `GLCall` -/

/-- `GLClearError`: `while (glGetError() != GL_NO_ERROR);`, allowed at most
`fuel` iterations. -/
def GLClearError {σ : Type} (d : Driver σ) : Nat → Prog σ Unit
  | 0 => outOfFuel
  | fuel + 1 => do
    let error ← callRet (Call.glGetError Site.clear) d.glGetError
    if error ≠ GL_NO_ERROR then GLClearError d fuel else pure ()

/-- `GLLogCall(function, file, line)`: the body of its `while` returns at once,
so a single `glGetError` is issued. -/
def GLLogCall {σ : Type} (d : Driver σ) (function file : List Char) (line : Nat) :
    Prog σ Bool := do
  let error ← callRet (Call.glGetError Site.log) d.glGetError
  if error ≠ GL_NO_ERROR then
    cout ("[OpenGL Error] (".toList ++ (Nat.repr error).toList ++ "): ".toList ++ function
      ++ " : ".toList ++ (Nat.repr line).toList ++ "\nFile : ".toList ++ file ++ [newline])
    pure false
  else
    pure true

/-- `ASSERT(x)`: `if (!(x)) __debugbreak()`. -/
def ASSERT {σ : Type} (x : Bool) : Prog σ Unit :=
  if !x then debugbreak else pure ()

/-- The wrapper `GLCall(x)` used at source line `line`, `function` being the
text of `x` and `file` the value of `__FILE__`. -/
def GLCall {σ α : Type} (d : Driver σ) (fuel : Nat) (file function : List Char) (line : Nat)
    (x : Prog σ α) : Prog σ α := do
  GLClearError d fuel
  let r ← x
  let logged ← GLLogCall d function file line
  ASSERT logged
  pure r

/-! ## `CompileShader`, `CreateShader` -/

/-- The C string the pointer `&source[0]` designates: the characters before the
first terminator. -/
def cstr (source : List Char) : List Char := source.takeWhile (· ≠ nul)

/-- `CompileShader(type, source)`. -/
def CompileShader {σ : Type} (d : Driver σ) (fuel : Nat) (file : List Char)
    (type : Nat) (source : List Char) : Prog σ Nat := do
  let id ← callRet (Call.glCreateShader type) (d.glCreateShader type)
  let src := cstr source
  GLCall d fuel file "glShaderSource(id, 1, &src, nullptr)".toList 102
    (callVoid (Call.glShaderSource id src) (d.glShaderSource id src))
  GLCall d fuel file "glCompileShader(id)".toList 103
    (callVoid (Call.glCompileShader id) (d.glCompileShader id))
  let result ← GLCall d fuel file "glGetShaderiv(id, GL_COMPILE_STATUS, &result)".toList 109
    (callRet (Call.glGetShaderiv id GL_COMPILE_STATUS) (d.glGetShaderiv id GL_COMPILE_STATUS))
  if result = GL_FALSE then
    let errLength ← GLCall d fuel file
      "glGetShaderiv(id, GL_INFO_LOG_LENGTH, &errLength)".toList 113
      (callRet (Call.glGetShaderiv id GL_INFO_LOG_LENGTH) (d.glGetShaderiv id GL_INFO_LOG_LENGTH))
    let _message ← GLCall d fuel file
      "glGetShaderInfoLog(id, errLength, &errLength, message)".toList 116
      (callRet (Call.glGetShaderInfoLog id errLength) (d.glGetShaderInfoLog id errLength))
    cout ("Failed to compile ".toList
      ++ (if type = GL_VERTEX_SHADER then "vertex".toList else "fragment".toList)
      ++ " shader!".toList ++ [newline])
    GLCall d fuel file "glDeleteProgram(id)".toList 121
      (callVoid (Call.glDeleteProgram id) (d.glDeleteProgram id))
    pure 0
  else
    pure id

/-- `CreateShader(vertexShader, fragmentShader)`. -/
def CreateShader {σ : Type} (d : Driver σ) (fuel : Nat) (file : List Char)
    (vertexShader fragmentShader : List Char) : Prog σ Nat := do
  let programID ← callRet Call.glCreateProgram d.glCreateProgram
  let vs ← CompileShader d fuel file GL_VERTEX_SHADER vertexShader
  let fs ← CompileShader d fuel file GL_FRAGMENT_SHADER fragmentShader
  GLCall d fuel file "glAttachShader(programID, vs)".toList 141
    (callVoid (Call.glAttachShader programID vs) (d.glAttachShader programID vs))
  GLCall d fuel file "glAttachShader(programID, fs)".toList 142
    (callVoid (Call.glAttachShader programID fs) (d.glAttachShader programID fs))
  GLCall d fuel file "glLinkProgram(programID)".toList 145
    (callVoid (Call.glLinkProgram programID) (d.glLinkProgram programID))
  GLCall d fuel file "glValidateProgram(programID)".toList 146
    (callVoid (Call.glValidateProgram programID) (d.glValidateProgram programID))
  GLCall d fuel file "glDeleteShader(vs)".toList 149
    (callVoid (Call.glDeleteShader vs) (d.glDeleteShader vs))
  GLCall d fuel file "glDeleteShader(fs)".toList 150
    (callVoid (Call.glDeleteShader fs) (d.glDeleteShader fs))
  pure programID

/-! ## A concrete driver for evaluation

Its state counts the objects created so far; object names are handed out in
sequence starting from 1, the error queue is always empty, and every
compilation whose source is listed in `bad` fails with the diagnostic `msg`.
-/

/-- State of the sample driver: the number of names handed out, and the source
last given to each shader. -/
structure SampleState where
  next : Nat
  sources : List (Nat × List Char)
  deriving DecidableEq, Repr

/-- The sample driver. -/
def sampleDriver (bad : List (List Char)) (msg : List Char) : Driver SampleState where
  glGetError := fun s => (GL_NO_ERROR, s)
  glCreateShader := fun _ s => (s.next + 1, { s with next := s.next + 1 })
  glShaderSource := fun id src s => { s with sources := (id, src) :: s.sources }
  glCompileShader := fun _ s => s
  glGetShaderiv := fun id pname s =>
    let failed : Bool :=
      match s.sources.lookup id with
      | some src => decide (src ∈ bad)
      | none => true
    if pname = GL_COMPILE_STATUS then (if failed then 0 else 1, s)
    else if pname = GL_INFO_LOG_LENGTH then (if failed then (msg.length : Int) + 1 else 0, s)
    else (0, s)
  glGetShaderInfoLog := fun id _ s =>
    match s.sources.lookup id with
    | some src => (if src ∈ bad then msg else [], s)
    | none => (msg, s)
  glDeleteProgram := fun _ s => s
  glCreateProgram := fun s => (s.next + 1, { s with next := s.next + 1 })
  glAttachShader := fun _ _ s => s
  glLinkProgram := fun _ s => s
  glValidateProgram := fun _ s => s
  glDeleteShader := fun _ s => s

/-- The sample driver before any object was created. -/
def SampleState.init : SampleState := ⟨0, []⟩

/-! ## Vocabulary of the properties, and more drivers -/

/-- The mode the parser is in after the lines `ls`, read off the specification. -/
def modeAfter (ls : List (List Char)) : ShaderType :=
  match nearestSwitch ls with
  | none => ShaderType.NONE
  | some d => if hasVertex d then ShaderType.VERTEX else ShaderType.FRAGMENT

/-- The driver's error queue stays empty: `glGetError` answers `GL_NO_ERROR`
in every state. -/
def Quiet {σ : Type} (d : Driver σ) : Prop := ∀ s, (d.glGetError s).1 = GL_NO_ERROR

/-- The calls `GLCall(x)` issues when the error queue is empty: one read by
`GLClearError`, the call `x`, one read by `GLLogCall`. -/
def wrapped (c : Call) : List Call :=
  [Call.glGetError Site.clear GL_NO_ERROR, c, Call.glGetError Site.log GL_NO_ERROR]

/-- The driver reported a compile failure: some query of `GL_COMPILE_STATUS`
among the calls was answered `GL_FALSE`. -/
def reportsCompileFailure (calls : List Call) : Bool :=
  calls.any fun c =>
    match c with
    | Call.glGetShaderiv _ pname ret => decide (pname = GL_COMPILE_STATUS ∧ ret = GL_FALSE)
    | _ => false

/-- The text `CompileShader` writes when a stage fails to compile. -/
def failureText (type : Nat) : List Char :=
  "Failed to compile ".toList
    ++ (if type = GL_VERTEX_SHADER then "vertex".toList else "fragment".toList)
    ++ " shader!".toList ++ [newline]

/-- A read of the error queue. -/
def isErrorRead : Call → Bool
  | Call.glGetError _ _ => true
  | _ => false

/-- One of the two calls that create an object. -/
def isCreation : Call → Bool
  | Call.glCreateShader _ _ => true
  | Call.glCreateProgram _ => true
  | _ => false

/-- The call, if any, is the read of the error queue made by `GLLogCall`. -/
def isCheck : Option Call → Bool
  | some (Call.glGetError Site.log _) => true
  | _ => false

/-- The call, if any, is a read by `GLClearError` that found the queue empty. -/
def isCleared : Option Call → Bool
  | some (Call.glGetError Site.clear ret) => decide (ret = GL_NO_ERROR)
  | _ => false

/-- Every call of the list that is not exempt is immediately followed by the
check of `GLLogCall`. -/
def checkedAfter (exempt : Call → Bool) : List Call → Bool
  | [] => true
  | c :: rest => (exempt c || isCheck rest.head?) && checkedAfter exempt rest

/-- Every call of the list that is not exempt comes right after a read by
`GLClearError` that found the error queue empty (`prev` being the call issued
before the list) and right before the check of `GLLogCall`. -/
def bracketedFrom (exempt : Call → Bool) : Option Call → List Call → Bool
  | _, [] => true
  | prev, c :: rest =>
    (exempt c || (isCleared prev && isCheck rest.head?)) && bracketedFrom exempt (some c) rest

/-- The calls exempt from the check in `CompileShader` and `CreateShader`:
reads of the error queue, and the two object creations. -/
def unchecked (c : Call) : Bool := isErrorRead c || isCreation c

/-- All calls of a piece of program are bracketed, whatever the driver state. -/
def Bracketed {σ α : Type} (m : Prog σ α) : Prop :=
  ∀ s, bracketedFrom unchecked none (m s).calls = true

/-- The driver `d` with its error reports suppressed: `glGetError` moves the
driver as in `d` and answers `GL_NO_ERROR`. -/
def silenced {σ : Type} (d : Driver σ) : Driver σ :=
  { d with glGetError := fun s => (GL_NO_ERROR, (d.glGetError s).2) }

/-- The error queue was found empty all along: every `glGetError` among the
calls answered `GL_NO_ERROR`. -/
def quietCalls (calls : List Call) : Bool :=
  calls.all fun c =>
    match c with
    | Call.glGetError _ ret => decide (ret = GL_NO_ERROR)
    | _ => true

/-- On the states from which the run of `m` finds the error queue empty all
along, `m` runs as `m2` does. -/
def Sim {σ α : Type} (m m2 : Prog σ α) : Prop :=
  ∀ s, quietCalls (m s).calls = true → m s = m2 s

/-- A driver with an error queue: `glCreateShader` raises `GL_INVALID_ENUM`
(1280) and hands out no object; `glGetError` pops the queue. -/
def queueDriver : Driver (List Nat) where
  glGetError := fun q =>
    match q with
    | [] => (GL_NO_ERROR, [])
    | e :: rest => (e, rest)
  glCreateShader := fun _ q => (0, q ++ [1280])
  glShaderSource := fun _ _ q => q
  glCompileShader := fun _ q => q
  glGetShaderiv := fun _ _ q => (1, q)
  glGetShaderInfoLog := fun _ _ q => ([], q)
  glDeleteProgram := fun _ q => q
  glCreateProgram := fun q => (1, q)
  glAttachShader := fun _ _ q => q
  glLinkProgram := fun _ q => q
  glValidateProgram := fun _ q => q
  glDeleteShader := fun _ q => q

/-- State of the strict driver: the number of names handed out, the names that
are shaders, the names that are programs, and the pending error codes. -/
structure StrictState where
  next : Nat
  shaders : List Nat
  programs : List Nat
  errors : List Nat
  deriving DecidableEq, Repr

/-- A driver that keeps shaders and programs apart, as the OpenGL reference
prescribes for `glDeleteProgram`: given the name of a program it deletes it,
given the name of a shader it raises `GL_INVALID_OPERATION` (1282), given any
other name but 0 it raises `GL_INVALID_VALUE` (1281).  Every compilation
fails; `glGetError` pops the pending errors. -/
def strictDriver : Driver StrictState where
  glGetError := fun s =>
    match s.errors with
    | [] => (GL_NO_ERROR, s)
    | e :: rest => (e, { s with errors := rest })
  glCreateShader := fun _ s =>
    (s.next + 1, { s with next := s.next + 1, shaders := (s.next + 1) :: s.shaders })
  glShaderSource := fun _ _ s => s
  glCompileShader := fun _ s => s
  glGetShaderiv := fun _ _ s => (0, s)
  glGetShaderInfoLog := fun _ _ s => ([], s)
  glDeleteProgram := fun id s =>
    if id ∈ s.programs then { s with programs := s.programs.erase id }
    else if id ∈ s.shaders then { s with errors := s.errors ++ [1282] }
    else if id = 0 then s
    else { s with errors := s.errors ++ [1281] }
  glCreateProgram := fun s =>
    (s.next + 1, { s with next := s.next + 1, programs := (s.next + 1) :: s.programs })
  glAttachShader := fun _ _ s => s
  glLinkProgram := fun _ s => s
  glValidateProgram := fun _ s => s
  glDeleteShader := fun id s => { s with shaders := s.shaders.erase id }

/-- The strict driver before any object was created. -/
def StrictState.init : StrictState := ⟨0, [], [], []⟩

/-- The sample driver on which the vertex source `"bad"` fails to compile with
the diagnostic `"0:1: unexpected token"`. -/
def badVertexDriver : Driver SampleState :=
  sampleDriver ["bad".toList] "0:1: unexpected token".toList

/-! ## Lemmas on the text primitives -/

theorem find_ne_none_iff (needle hay : List Char) :
    find needle hay ≠ none ↔ needle <:+: hay := by
  induction hay with
  | nil =>
    cases needle <;> simp [find, List.isPrefixOf]
  | cons c t ih =>
    rw [find, List.infix_cons_iff]
    by_cases h : needle.isPrefixOf (c :: t) = true
    · have hp : needle <+: c :: t := List.isPrefixOf_iff_prefix.mp h
      simp [h, hp]
    · have hp : ¬ needle <+: c :: t := fun hp => h (List.isPrefixOf_iff_prefix.mpr hp)
      rw [if_neg h]
      constructor
      · intro hne
        right
        apply ih.mp
        intro hnone
        apply hne
        simp [hnone]
      · rintro (hp2 | hin)
        · exact absurd hp2 hp
        · have := ih.mpr hin
          intro hnone
          apply this
          cases hf : find needle t with
          | none => rfl
          | some n => simp [hf] at hnone

theorem find_marker (l : List Char) : (find "#shader".toList l ≠ none) ↔ hasMarker l = true := by
  simp [hasMarker, find_ne_none_iff]

theorem find_vertex (l : List Char) : (find "vertex".toList l ≠ none) ↔ hasVertex l = true := by
  simp [hasVertex, find_ne_none_iff]

theorem find_fragment (l : List Char) :
    (find "fragment".toList l ≠ none) ↔ hasFragment l = true := by
  simp [hasFragment, find_ne_none_iff]

/-- The loop body, phrased with the vocabulary of the specification. -/
theorem parseLine_eq (st : ParseState) (line : List Char) :
    parseLine st line =
      if hasMarker line then
        if hasVertex line then { st with type := ShaderType.VERTEX }
        else if hasFragment line then { st with type := ShaderType.FRAGMENT }
        else st
      else
        match st.type with
        | ShaderType.VERTEX => { st with ss0 := st.ss0 ++ line ++ [newline] }
        | ShaderType.FRAGMENT => { st with ss1 := st.ss1 ++ line ++ [newline] }
        | ShaderType.NONE => st := by
  unfold parseLine
  simp only [find_marker, find_vertex, find_fragment]
  cases ht : st.type <;> simp

/-- Unfolding of the line loop in terms of single `getline` calls. -/
theorem getlinesFrom_eq_getline (cur text : List Char) :
    getlinesFrom cur text =
      match getline text with
      | none => if cur.isEmpty then [] else [cur]
      | some (l, rest) => (cur ++ l) :: getlines rest := by
  induction text generalizing cur with
  | nil => simp [getlinesFrom, getline]
  | cons c t ih =>
    by_cases hc : c = newline
    · simp [getlinesFrom, getline, hc, getlines]
    · rw [getlinesFrom, if_neg hc, ih, getline, if_neg hc]
      cases hg : getline t with
      | none => simp [getlines, getlinesFrom]
      | some p => simp

theorem getlines_eq_getline (text : List Char) :
    getlines text =
      match getline text with
      | none => []
      | some (l, rest) => l :: getlines rest := by
  rw [getlines, getlinesFrom_eq_getline]
  cases getline text <;> simp

theorem getlinesFrom_line (cur l rest : List Char) (hl : newline ∉ l) :
    getlinesFrom cur (l ++ newline :: rest) = (cur ++ l) :: getlines rest := by
  induction l generalizing cur with
  | nil => simp [getlinesFrom, getlines]
  | cons c t ih =>
    have hc : c ≠ newline := fun h => hl (by simp [h])
    have ht : newline ∉ t := fun h => hl (by simp [h])
    simp [getlinesFrom, hc, ih _ ht]

/-- A text made of terminated lines is read back as those lines. -/
theorem getlines_unlines (lines : List (List Char)) (h : ∀ l ∈ lines, newline ∉ l) :
    getlines (unlines lines) = lines := by
  induction lines with
  | nil => simp [unlines, getlines, getlinesFrom]
  | cons l ls ih =>
    have h1 : newline ∉ l := h l (by simp)
    have h2 : ∀ l' ∈ ls, newline ∉ l' := fun l' hl' => h l' (by simp [hl'])
    have : unlines (l :: ls) = l ++ newline :: unlines ls := by simp [unlines]
    rw [this, getlines, getlinesFrom_line _ _ _ h1, ih h2]
    simp

/-- A text whose last line is not terminated is read as its terminated lines
followed by that last line. -/
theorem getlines_unlines_last (lines : List (List Char)) (l : List Char)
    (h : ∀ l2 ∈ lines, newline ∉ l2) (hl : newline ∉ l) (hne : l ≠ []) :
    getlines (unlines lines ++ l) = lines ++ [l] := by
  have hlast : ∀ cur l2 : List Char, newline ∉ l2 → cur ++ l2 ≠ [] →
      getlinesFrom cur l2 = [cur ++ l2] := by
    intro cur l2
    induction l2 generalizing cur with
    | nil =>
      intro _ hcur
      cases cur with
      | nil => simp at hcur
      | cons c t => simp [getlinesFrom]
    | cons c t ih =>
      intro hmem _
      have hc : c ≠ newline := fun h2 => hmem (by simp [h2])
      have ht : newline ∉ t := fun h2 => hmem (by simp [h2])
      rw [getlinesFrom, if_neg hc, ih (cur ++ [c]) ht (by simp)]
      simp
  induction lines with
  | nil => simpa [unlines, getlines] using hlast [] l hl (by simpa using hne)
  | cons l1 ls ih =>
    have h1 : newline ∉ l1 := h l1 (by simp)
    have h2 : ∀ l2 ∈ ls, newline ∉ l2 := fun l2 hl2 => h l2 (by simp [hl2])
    have : unlines (l1 :: ls) ++ l = l1 ++ newline :: (unlines ls ++ l) := by simp [unlines]
    rw [this, getlines, getlinesFrom_line _ _ _ h1, ih h2]
    simp

/-- `ParseShader` on a path that can be read is `ParseShader` on its text. -/
theorem ParseShader_of_readable (fs : List Char → Option (List Char))
    (filepath text : List Char) (h : fs filepath = some text) :
    ParseShader fs filepath = ParseShaderText text := by
  simp [ParseShader, ParseShaderText, h]

/-! ## The parser against its specification -/

theorem nearestSwitch_snoc (ls : List (List Char)) (l : List Char) :
    nearestSwitch (ls ++ [l]) = if isSwitch l then some l else nearestSwitch ls := by
  simp [nearestSwitch, List.find?_cons]
  cases isSwitch l <;> simp

theorem nearestSwitch_isSwitch {ls : List (List Char)} {d : List Char}
    (h : nearestSwitch ls = some d) : isSwitch d = true := by
  unfold nearestSwitch at h
  exact List.find?_some h

theorem selectedText_snoc (sel : List (List Char) → List Char → Bool) (ls : List (List Char))
    (l : List Char) :
    selectedText sel (ls ++ [l]) =
      selectedText sel ls ++ (if sel ls l then l ++ [newline] else []) := by
  unfold selectedText
  have hlen : (ls ++ [l]).length = ls.length + 1 := by simp
  rw [hlen, List.range_succ, List.filter_append, List.flatMap_append]
  congr 1
  · have hf : (List.range ls.length).filter
          (fun i => sel ((ls ++ [l]).take i) ((ls ++ [l]).getD i [])) =
        (List.range ls.length).filter (fun i => sel (ls.take i) (ls.getD i [])) := by
      apply List.filter_congr
      intro i hi
      have hi2 : i < ls.length := List.mem_range.mp hi
      rw [List.take_append_of_le_length (le_of_lt hi2), List.getD_append _ _ _ _ hi2]
    rw [hf]
    simp only [List.flatMap]
    congr 1
    apply List.map_congr_left
    intro i hi
    have hi2 : i < ls.length := List.mem_range.mp (List.mem_filter.mp hi).1
    rw [List.getD_append _ _ _ _ hi2]
  · have h1 : (ls ++ [l]).take ls.length = ls := by simp
    have h2 : (ls ++ [l]).getD ls.length [] = l := by
      simp [List.getD_eq_getElem?_getD]
    simp only [List.filter_cons, List.filter_nil, h1, h2]
    cases sel ls l <;> simp

theorem parseLines_snoc (st : ParseState) (ls : List (List Char)) (l : List Char) :
    parseLines st (ls ++ [l]) = parseLine (parseLines st ls) l := by
  simp [parseLines, List.foldl_append]

/-- Loop invariant of `ParseShader`. -/
theorem parseLines_invariant (ls : List (List Char)) :
    parseLines ParseState.init ls =
      ⟨modeAfter ls, selectedText vertexLine ls, selectedText fragmentLine ls⟩ := by
  induction ls using List.reverseRecOn with
  | nil => rfl
  | append_singleton ls l ih =>
    rw [parseLines_snoc, ih, parseLine_eq, selectedText_snoc, selectedText_snoc]
    rw [modeAfter, modeAfter, vertexLine, fragmentLine, nearestSwitch_snoc, isSwitch]
    rcases Bool.eq_false_or_eq_true (hasMarker l) with hm | hm
    · -- a directive
      rcases Bool.eq_false_or_eq_true (hasVertex l) with hv | hv
      · simp [hm, hv]
      · rcases Bool.eq_false_or_eq_true (hasFragment l) with hf | hf
        · simp [hm, hv, hf]
        · simp [hm, hv, hf]
    · -- a content line
      cases hn : nearestSwitch ls with
      | none => simp [hm]
      | some d =>
        have hd := nearestSwitch_isSwitch hn
        simp only [isSwitch, Bool.and_eq_true, Bool.or_eq_true] at hd
        rcases Bool.eq_false_or_eq_true (hasVertex d) with hv | hv
        · simp [hm, hv]
        · have hf : hasFragment d = true := by
            rcases hd.2 with h | h
            · rw [hv] at h; cases h
            · exact h
          simp [hm, hv, hf]

theorem parseLines_cons (st : ParseState) (l : List Char) (ls : List (List Char)) :
    parseLines st (l :: ls) = parseLines (parseLine st l) ls := rfl

theorem parseLines_append (st : ParseState) (xs ys : List (List Char)) :
    parseLines st (xs ++ ys) = parseLines (parseLines st xs) ys := by
  simp [parseLines, List.foldl_append]

/-- A directive naming no stage leaves every variable of the loop as it was. -/
theorem parseLine_plain_directive (st : ParseState) (d : List Char)
    (hm : hasMarker d = true) (hv : hasVertex d = false) (hf : hasFragment d = false) :
    parseLine st d = st := by
  rw [parseLine_eq]
  simp [hm, hv, hf]

/-- A directive naming the vertex stage selects it, whatever else it names. -/
theorem parseLine_vertex_directive (st : ParseState) (d : List Char)
    (hm : hasMarker d = true) (hv : hasVertex d = true) :
    parseLine st d = { st with type := ShaderType.VERTEX } := by
  rw [parseLine_eq]
  simp [hm, hv]

/-- In vertex mode, lines that do not switch the section only extend `ss[0]`. -/
theorem parseLines_vertex_run (ss0 ss1 : List Char) (mid : List (List Char))
    (h : ∀ l ∈ mid, isSwitch l = false) :
    parseLines ⟨ShaderType.VERTEX, ss0, ss1⟩ mid =
      ⟨ShaderType.VERTEX, ss0 ++ unlines (mid.filter fun l => !hasMarker l), ss1⟩ := by
  induction mid generalizing ss0 with
  | nil => simp [parseLines, unlines]
  | cons l ls ih =>
    have hl : isSwitch l = false := h l (by simp)
    have hls : ∀ l' ∈ ls, isSwitch l' = false := fun l' hl' => h l' (by simp [hl'])
    rw [parseLines_cons, parseLine_eq]
    rcases Bool.eq_false_or_eq_true (hasMarker l) with hm | hm
    · have hv : hasVertex l = false := by
        rcases Bool.eq_false_or_eq_true (hasVertex l) with hv | hv
        · simp [isSwitch, hm, hv] at hl
        · exact hv
      have hf : hasFragment l = false := by
        rcases Bool.eq_false_or_eq_true (hasFragment l) with hf | hf
        · simp [isSwitch, hm, hf] at hl
        · exact hf
      simp only [hm, hv, hf, if_true, Bool.false_eq_true, if_false]
      rw [ih ss0 hls]
      simp [List.filter_cons, hm]
    · simp only [hm, Bool.false_eq_true, if_false]
      rw [ih _ hls]
      simp [List.filter_cons, hm, unlines]

/-- With no mode selected, lines without the marker change nothing. -/
theorem parseLines_no_marker (ss0 ss1 : List Char) (ls : List (List Char))
    (h : ∀ l ∈ ls, hasMarker l = false) :
    parseLines ⟨ShaderType.NONE, ss0, ss1⟩ ls = ⟨ShaderType.NONE, ss0, ss1⟩ := by
  induction ls with
  | nil => rfl
  | cons l ls ih =>
    have hl : hasMarker l = false := h l (by simp)
    rw [parseLines_cons, parseLine_eq]
    simp only [hl, Bool.false_eq_true, if_false]
    exact ih fun l' hl' => h l' (by simp [hl'])

/-! ## The marker never shows up inside an output buffer -/

theorem infix_of_infix_sep (needle a b : List Char) (c : Char) (hc : c ∉ needle)
    (h : needle <:+: a ++ c :: b) : needle <:+: a ∨ needle <:+: b := by
  obtain ⟨s, t, hst⟩ := h
  rcases List.append_eq_append_iff.mp hst with ⟨a', ha, -⟩ | ⟨c', hc', hb⟩
  · left
    exact ⟨s, a', ha.symm⟩
  · cases c' with
    | nil =>
      left
      exact ⟨s, [], by simpa using hc'⟩
    | cons x c'' =>
      simp only [List.cons_append, List.cons.injEq] at hb
      obtain ⟨rfl, hb⟩ := hb
      rcases List.append_eq_append_iff.mp hc' with ⟨x, -, hx⟩ | ⟨x, -, hx⟩
      · exact absurd (by rw [hx]; simp) hc
      · cases x with
        | nil =>
          simp only [List.nil_append] at hx
          exact absurd (by rw [← hx]; simp) hc
        | cons y x' =>
          simp only [List.cons_append, List.cons.injEq] at hx
          right
          refine ⟨x', t, ?_⟩
          rw [hb, hx.2]

theorem marker_not_in_selectedText (sel : List (List Char) → List Char → Bool)
    (hsel : ∀ pre l, sel pre l = true → hasMarker l = false) (ls : List (List Char)) :
    ¬ "#shader".toList <:+: selectedText sel ls := by
  have hnl : newline ∉ "#shader".toList := by decide
  have hne : ¬ "#shader".toList <:+: ([] : List Char) := by decide
  have key : ∀ ls : List (List Char),
      ¬ "#shader".toList <:+: selectedText sel ls ∧
        (selectedText sel ls = [] ∨ ∃ y, selectedText sel ls = y ++ [newline]) := by
    intro ls
    induction ls using List.reverseRecOn with
    | nil => exact ⟨by simp [selectedText], Or.inl (by simp [selectedText])⟩
    | append_singleton ls l ih =>
      rw [selectedText_snoc]
      rcases Bool.eq_false_or_eq_true (sel ls l) with hs | hs
      · have hl : ¬ "#shader".toList <:+: l := by
          exact of_decide_eq_false (hsel ls l hs)
        have hl2 : ¬ "#shader".toList <:+: l ++ [newline] := by
          intro h
          rcases infix_of_infix_sep _ _ _ _ hnl h with h | h
          · exact hl h
          · exact hne h
        simp only [hs, if_true]
        refine ⟨?_, Or.inr ⟨selectedText sel ls ++ l, by simp⟩⟩
        rcases ih.2 with h0 | ⟨y, hy⟩
        · rw [h0]; simpa using hl2
        · intro h
          rw [hy, List.append_assoc, List.singleton_append] at h
          rcases infix_of_infix_sep _ _ _ _ hnl h with h | h
          · apply ih.1
            rw [hy]
            exact h.trans (List.infix_append' [] y [newline] |>.trans (by simp))
          · exact hl2 h
      · simp only [hs, Bool.false_eq_true, if_false, List.append_nil]
        exact ih
  exact (key ls).1

/-! ## Lemmas on runs of the Builder -/

theorem run_bind {σ α β : Type} (m : Prog σ α) (f : α → Prog σ β) (s : σ) :
    (m >>= f) s = Prog.bind m f s := rfl

theorem run_pure {σ α : Type} (a : α) (s : σ) :
    (pure a : Prog σ α) s = ⟨[], [], Outcome.ok a s⟩ := rfl

theorem GLClearError_quiet {σ : Type} (d : Driver σ) (hq : Quiet d) (fuel : Nat) (s : σ) :
    GLClearError d (fuel + 1) s =
      ⟨[Call.glGetError Site.clear GL_NO_ERROR], [], Outcome.ok () (d.glGetError s).2⟩ := by
  simp [GLClearError, run_bind, run_pure, Prog.bind, Prog.pure, callRet, hq s]

theorem GLLogCall_quiet {σ : Type} (d : Driver σ) (hq : Quiet d) (function file : List Char)
    (line : Nat) (s : σ) :
    GLLogCall d function file line s =
      ⟨[Call.glGetError Site.log GL_NO_ERROR], [], Outcome.ok true (d.glGetError s).2⟩ := by
  simp [GLLogCall, run_bind, run_pure, Prog.bind, Prog.pure, callRet, hq s]

theorem GLCall_quiet_void {σ : Type} (d : Driver σ) (hq : Quiet d) (fuel : Nat)
    (file function : List Char) (line : Nat) (c : Call) (f : σ → σ) (s : σ) :
    GLCall d (fuel + 1) file function line (callVoid c f) s =
      ⟨wrapped c, [], Outcome.ok () (d.glGetError (f (d.glGetError s).2)).2⟩ := by
  simp [GLCall, run_bind, run_pure, Prog.bind, Prog.pure, callVoid, ASSERT, wrapped,
    GLClearError_quiet d hq, GLLogCall_quiet d hq]

theorem GLCall_quiet_ret {σ α : Type} (d : Driver σ) (hq : Quiet d) (fuel : Nat)
    (file function : List Char) (line : Nat) (mk : α → Call) (f : σ → α × σ) (s : σ) :
    GLCall d (fuel + 1) file function line (callRet mk f) s =
      ⟨wrapped (mk (f (d.glGetError s).2).1), [],
        Outcome.ok (f (d.glGetError s).2).1 (d.glGetError (f (d.glGetError s).2).2).2⟩ := by
  simp [GLCall, run_bind, run_pure, Prog.bind, Prog.pure, callRet, ASSERT, wrapped,
    GLClearError_quiet d hq, GLLogCall_quiet d hq]

/-- `CompileShader` on a driver whose error queue stays empty. -/
theorem CompileShader_quiet {σ : Type} (d : Driver σ) (hq : Quiet d) (fuel : Nat)
    (file : List Char) (type : Nat) (source : List Char) (s : σ) :
    (∃ status s1, status ≠ GL_FALSE ∧
      CompileShader d (fuel + 1) file type source s =
        ⟨[Call.glCreateShader type (d.glCreateShader type s).1]
            ++ wrapped (Call.glShaderSource (d.glCreateShader type s).1 (cstr source))
            ++ wrapped (Call.glCompileShader (d.glCreateShader type s).1)
            ++ wrapped (Call.glGetShaderiv (d.glCreateShader type s).1 GL_COMPILE_STATUS status),
          [], Outcome.ok (d.glCreateShader type s).1 s1⟩) ∨
    (∃ errLength message s1,
      CompileShader d (fuel + 1) file type source s =
        ⟨[Call.glCreateShader type (d.glCreateShader type s).1]
            ++ wrapped (Call.glShaderSource (d.glCreateShader type s).1 (cstr source))
            ++ wrapped (Call.glCompileShader (d.glCreateShader type s).1)
            ++ wrapped (Call.glGetShaderiv (d.glCreateShader type s).1 GL_COMPILE_STATUS GL_FALSE)
            ++ wrapped (Call.glGetShaderiv (d.glCreateShader type s).1 GL_INFO_LOG_LENGTH
                errLength)
            ++ wrapped (Call.glGetShaderInfoLog (d.glCreateShader type s).1 errLength message)
            ++ wrapped (Call.glDeleteProgram (d.glCreateShader type s).1),
          failureText type, Outcome.ok 0 s1⟩) := by
  simp only [CompileShader, run_bind, run_pure, Prog.bind, callRet, GLCall_quiet_void d hq,
    GLCall_quiet_ret d hq]
  split
  · rename_i h
    right
    simp only [run_bind, run_pure, Prog.bind, GLCall_quiet_void d hq,
      GLCall_quiet_ret d hq, cout]
    simp only [h, failureText, List.append_nil, List.nil_append, List.append_assoc]
    exact ⟨_, _, _, rfl⟩
  · rename_i h
    left
    simp only [List.append_nil, List.nil_append, List.append_assoc]
    exact ⟨_, _, h, rfl⟩

theorem bracketedFrom_of_none (ex : Call → Bool) (prev : Option Call) (l : List Call)
    (h : bracketedFrom ex none l = true) : bracketedFrom ex prev l = true := by
  cases l with
  | nil => rfl
  | cons c rest =>
    simp only [bracketedFrom, isCleared, Bool.false_and, Bool.or_false, Bool.and_eq_true] at h ⊢
    exact ⟨by simp [h.1], h.2⟩

theorem bracketedFrom_append (ex : Call → Bool) (prev : Option Call) (a b : List Call)
    (ha : bracketedFrom ex prev a = true) (hb : bracketedFrom ex none b = true) :
    bracketedFrom ex prev (a ++ b) = true := by
  induction a generalizing prev with
  | nil => exact bracketedFrom_of_none ex prev b hb
  | cons c rest ih =>
    simp only [bracketedFrom, Bool.and_eq_true, List.cons_append] at ha ⊢
    refine ⟨?_, ih _ ha.2⟩
    cases rest with
    | nil =>
      have : ex c = true := by simpa [isCheck] using ha.1
      simp [this]
    | cons c2 rest2 => simpa using ha.1

theorem bracketedFrom_reads (ex : Call → Bool) (prev : Option Call) (l : List Call)
    (h : ∀ c ∈ l, ex c = true) : bracketedFrom ex prev l = true := by
  induction l generalizing prev with
  | nil => rfl
  | cons c rest ih =>
    simp only [bracketedFrom, Bool.and_eq_true]
    exact ⟨by simp [h c (by simp)], ih _ fun c2 h2 => h c2 (by simp [h2])⟩

theorem checkedAfter_of_bracketedFrom (ex : Call → Bool) (prev : Option Call) (l : List Call)
    (h : bracketedFrom ex prev l = true) : checkedAfter ex l = true := by
  induction l generalizing prev with
  | nil => rfl
  | cons c rest ih =>
    simp only [bracketedFrom, checkedAfter, Bool.and_eq_true, Bool.or_eq_true] at h ⊢
    exact ⟨h.1.imp id (fun h2 => h2.2), ih _ h.2⟩

/-- What `GLClearError` issues: reads of the error queue only, the last of
which found the queue empty when the routine returns; it never traps. -/
theorem GLClearError_calls {σ : Type} (d : Driver σ) (fuel : Nat) (s : σ) :
    ((GLClearError d fuel s).outcome = Outcome.hang ∧
      ∀ c ∈ (GLClearError d fuel s).calls, isErrorRead c = true) ∨
    (∃ s1 pre, (GLClearError d fuel s).outcome = Outcome.ok () s1 ∧
      (GLClearError d fuel s).calls = pre ++ [Call.glGetError Site.clear GL_NO_ERROR] ∧
      ∀ c ∈ pre, isErrorRead c = true) := by
  induction fuel generalizing s with
  | zero =>
    left
    simp [GLClearError, outOfFuel]
  | succ n ih =>
    simp only [GLClearError, run_bind, Prog.bind, callRet]
    by_cases he : (d.glGetError s).1 = GL_NO_ERROR
    · right
      refine ⟨(d.glGetError s).2, [], ?_⟩
      simp [he, run_pure]
    · simp only [he, ne_eq, not_false_eq_true, if_true]
      rcases ih (d.glGetError s).2 with ⟨h1, h2⟩ | ⟨s1, pre, h1, h2, h3⟩
      · left
        refine ⟨h1, ?_⟩
        intro c hc
        simp only [List.mem_append, List.mem_singleton] at hc
        rcases hc with rfl | hc
        · rfl
        · exact h2 c hc
      · right
        refine ⟨s1, Call.glGetError Site.clear (d.glGetError s).1 :: pre, h1, ?_, ?_⟩
        · simp [h2]
        · intro c hc
          simp only [List.mem_cons] at hc
          rcases hc with rfl | hc
          · rfl
          · exact h3 c hc

theorem Bracketed_pure {σ α : Type} (a : α) : Bracketed (pure a : Prog σ α) := fun _ => rfl

theorem Bracketed_cout {σ : Type} (t : List Char) : Bracketed (cout t : Prog σ Unit) :=
  fun _ => rfl

theorem Bracketed_creation {σ α : Type} (mk : α → Call) (f : σ → α × σ)
    (h : ∀ a, isCreation (mk a) = true) : Bracketed (callRet mk f) := by
  intro s
  simp [callRet, bracketedFrom, unchecked, h]

theorem Bracketed_bind {σ α β : Type} (m : Prog σ α) (f : α → Prog σ β)
    (hm : Bracketed m) (hf : ∀ a, Bracketed (f a)) : Bracketed (m >>= f) := by
  intro s
  rw [run_bind]
  unfold Prog.bind
  cases h : (m s).outcome with
  | ok a s1 => exact bracketedFrom_append _ _ _ _ (hm s) (hf a s1)
  | trap => exact hm s
  | hang => exact hm s

theorem Bracketed_ite {σ α : Type} (c : Prop) [Decidable c] (a b : Prog σ α)
    (ha : Bracketed a) (hb : Bracketed b) : Bracketed (if c then a else b) := by
  split
  · exact ha
  · exact hb

/-- The calls of `GLCall(x)` for a single driver call `x`: reads by
`GLClearError`, then, unless that loop is cut short, the call between a read
that found the queue empty and the read of `GLLogCall`. -/
theorem GLCall_calls {σ α : Type} (d : Driver σ) (fuel : Nat) (file function : List Char)
    (line : Nat) (x : Prog σ α) (c : σ → Call)
    (hx : ∀ s, ∃ a s1, x s = ⟨[c s], [], Outcome.ok a s1⟩) (s : σ) :
    ∃ pre, (∀ r ∈ pre, isErrorRead r = true) ∧
      ((GLCall d fuel file function line x s).calls = pre ∨
        ∃ s0 e, (GLCall d fuel file function line x s).calls =
          pre ++ [Call.glGetError Site.clear GL_NO_ERROR, c s0, Call.glGetError Site.log e]) := by
  rcases GLClearError_calls d fuel s with ⟨h1, h2⟩ | ⟨s1, pre, h1, h2, h3⟩
  · refine ⟨_, h2, Or.inl ?_⟩
    simp [GLCall, run_bind, Prog.bind, h1]
  · obtain ⟨a, s2, hxs⟩ := hx s1
    refine ⟨pre, h3, Or.inr ⟨s1, (d.glGetError s2).1, ?_⟩⟩
    simp only [GLCall, run_bind, Prog.bind, h1, h2, hxs, GLLogCall, callRet]
    by_cases he : (d.glGetError s2).1 = GL_NO_ERROR
    · simp [he, run_pure, ASSERT, Prog.bind]
    · simp [he, run_pure, ASSERT, Prog.bind, cout, run_bind, debugbreak]

theorem Bracketed_GLCall {σ α : Type} (d : Driver σ) (fuel : Nat) (file function : List Char)
    (line : Nat) (x : Prog σ α) (c : σ → Call)
    (hx : ∀ s, ∃ a s1, x s = ⟨[c s], [], Outcome.ok a s1⟩) :
    Bracketed (GLCall d fuel file function line x) := by
  intro s
  obtain ⟨pre, hpre, h | ⟨s0, e, h⟩⟩ := GLCall_calls d fuel file function line x c hx s
  · rw [h]
    exact bracketedFrom_reads _ _ _ fun r hr => by simp [unchecked, hpre r hr]
  · rw [h]
    apply bracketedFrom_append
    · exact bracketedFrom_reads _ _ _ fun r hr => by simp [unchecked, hpre r hr]
    · simp [bracketedFrom, unchecked, isErrorRead, isCleared, isCheck]

theorem Bracketed_GLCall_void {σ : Type} (d : Driver σ) (fuel : Nat)
    (file function : List Char) (line : Nat) (c : Call) (f : σ → σ) :
    Bracketed (GLCall d fuel file function line (callVoid c f)) :=
  Bracketed_GLCall d fuel file function line _ (fun _ => c) fun s => ⟨(), f s, rfl⟩

theorem Bracketed_GLCall_ret {σ α : Type} (d : Driver σ) (fuel : Nat)
    (file function : List Char) (line : Nat) (mk : α → Call) (f : σ → α × σ) :
    Bracketed (GLCall d fuel file function line (callRet mk f)) :=
  Bracketed_GLCall d fuel file function line _ (fun s => mk (f s).1) fun s =>
    ⟨(f s).1, (f s).2, rfl⟩

theorem Bracketed_CompileShader {σ : Type} (d : Driver σ) (fuel : Nat) (file : List Char)
    (type : Nat) (source : List Char) : Bracketed (CompileShader d fuel file type source) := by
  unfold CompileShader
  refine Bracketed_bind _ _ (Bracketed_creation _ _ fun _ => rfl) fun id => ?_
  refine Bracketed_bind _ _ (Bracketed_GLCall_void _ _ _ _ _ _ _) fun _ => ?_
  refine Bracketed_bind _ _ (Bracketed_GLCall_void _ _ _ _ _ _ _) fun _ => ?_
  refine Bracketed_bind _ _ (Bracketed_GLCall_ret _ _ _ _ _ _ _) fun result => ?_
  refine Bracketed_ite _ _ _ ?_ (Bracketed_pure _)
  refine Bracketed_bind _ _ (Bracketed_GLCall_ret _ _ _ _ _ _ _) fun errLength => ?_
  refine Bracketed_bind _ _ (Bracketed_GLCall_ret _ _ _ _ _ _ _) fun _message => ?_
  refine Bracketed_bind _ _ (Bracketed_cout _) fun _ => ?_
  refine Bracketed_bind _ _ (Bracketed_GLCall_void _ _ _ _ _ _ _) fun _ => ?_
  exact Bracketed_pure _

theorem Bracketed_CreateShader {σ : Type} (d : Driver σ) (fuel : Nat) (file : List Char)
    (vertexShader fragmentShader : List Char) :
    Bracketed (CreateShader d fuel file vertexShader fragmentShader) := by
  unfold CreateShader
  refine Bracketed_bind _ _ (Bracketed_creation _ _ fun _ => rfl) fun programID => ?_
  refine Bracketed_bind _ _ (Bracketed_CompileShader _ _ _ _ _) fun vs => ?_
  refine Bracketed_bind _ _ (Bracketed_CompileShader _ _ _ _ _) fun fs => ?_
  refine Bracketed_bind _ _ (Bracketed_GLCall_void _ _ _ _ _ _ _) fun _ => ?_
  refine Bracketed_bind _ _ (Bracketed_GLCall_void _ _ _ _ _ _ _) fun _ => ?_
  refine Bracketed_bind _ _ (Bracketed_GLCall_void _ _ _ _ _ _ _) fun _ => ?_
  refine Bracketed_bind _ _ (Bracketed_GLCall_void _ _ _ _ _ _ _) fun _ => ?_
  refine Bracketed_bind _ _ (Bracketed_GLCall_void _ _ _ _ _ _ _) fun _ => ?_
  refine Bracketed_bind _ _ (Bracketed_GLCall_void _ _ _ _ _ _ _) fun _ => ?_
  exact Bracketed_pure _

theorem run_bind_outcome_ok {σ α β : Type} (m : Prog σ α) (f : α → Prog σ β) (s s2 : σ) (b : β)
    (h : ((m >>= f) s).outcome = Outcome.ok b s2) :
    ∃ a s1, (m s).outcome = Outcome.ok a s1 ∧ (f a s1).outcome = Outcome.ok b s2 := by
  rw [run_bind] at h
  unfold Prog.bind at h
  cases hm : (m s).outcome with
  | ok a s1 =>
    rw [hm] at h
    exact ⟨a, s1, rfl, h⟩
  | trap => rw [hm] at h; cases h
  | hang => rw [hm] at h; cases h

/-- On a driver whose error queue stays empty `CompileShader` returns: 0 when a
compile failure was reported, the name given by `glCreateShader` otherwise. -/
theorem CompileShader_quiet_handle {σ : Type} (d : Driver σ) (hq : Quiet d) (fuel : Nat)
    (file : List Char) (type : Nat) (source : List Char) (s : σ) :
    ∃ vs sv, (CompileShader d (fuel + 1) file type source s).outcome = Outcome.ok vs sv ∧
      (reportsCompileFailure (CompileShader d (fuel + 1) file type source s).calls = true →
        vs = 0) ∧
      (reportsCompileFailure (CompileShader d (fuel + 1) file type source s).calls = false →
        vs = (d.glCreateShader type s).1) := by
  rcases CompileShader_quiet d hq fuel file type source s with
    ⟨status, s1, hst, h⟩ | ⟨errLength, message, s1, h⟩
  · refine ⟨_, s1, by rw [h], ?_, fun _ => rfl⟩
    intro hr
    rw [h] at hr
    simp [reportsCompileFailure, wrapped, hst] at hr
  · refine ⟨0, s1, by rw [h], fun _ => rfl, ?_⟩
    intro hr
    rw [h] at hr
    simp [reportsCompileFailure, wrapped] at hr

/-- The run of `CreateShader` on a driver whose error queue stays empty. -/
theorem CreateShader_quiet {σ : Type} (d : Driver σ) (hq : Quiet d) (fuel : Nat)
    (file vertexShader fragmentShader : List Char) (s : σ) (vs fs : Nat) (sv sf : σ)
    (hv : (CompileShader d (fuel + 1) file GL_VERTEX_SHADER vertexShader
      (d.glCreateProgram s).2).outcome = Outcome.ok vs sv)
    (hf : (CompileShader d (fuel + 1) file GL_FRAGMENT_SHADER fragmentShader sv).outcome =
      Outcome.ok fs sf) :
    ∃ s1, CreateShader d (fuel + 1) file vertexShader fragmentShader s =
      ⟨Call.glCreateProgram (d.glCreateProgram s).1 ::
        ((CompileShader d (fuel + 1) file GL_VERTEX_SHADER vertexShader
            (d.glCreateProgram s).2).calls
          ++ ((CompileShader d (fuel + 1) file GL_FRAGMENT_SHADER fragmentShader sv).calls
          ++ (wrapped (Call.glAttachShader (d.glCreateProgram s).1 vs)
          ++ (wrapped (Call.glAttachShader (d.glCreateProgram s).1 fs)
          ++ (wrapped (Call.glLinkProgram (d.glCreateProgram s).1)
          ++ (wrapped (Call.glValidateProgram (d.glCreateProgram s).1)
          ++ (wrapped (Call.glDeleteShader vs)
          ++ wrapped (Call.glDeleteShader fs)))))))),
        (CompileShader d (fuel + 1) file GL_VERTEX_SHADER vertexShader
            (d.glCreateProgram s).2).out
          ++ (CompileShader d (fuel + 1) file GL_FRAGMENT_SHADER fragmentShader sv).out,
        Outcome.ok (d.glCreateProgram s).1 s1⟩ := by
  simp only [CreateShader, run_bind, run_pure, Prog.bind, callRet, hv, hf,
    GLCall_quiet_void d hq, List.append_nil, List.nil_append, List.append_assoc,
    List.singleton_append]
  exact ⟨_, rfl⟩

/-! ## Runs that find the error queue empty all along -/

theorem silenced_quiet {σ : Type} (d : Driver σ) : Quiet (silenced d) := fun _ => rfl

theorem quietCalls_append (a b : List Call) :
    quietCalls (a ++ b) = (quietCalls a && quietCalls b) := by
  simp [quietCalls, List.all_append]

theorem calls_bind {σ α β : Type} (m : Prog σ α) (f : α → Prog σ β) (s : σ) :
    ∃ rest, ((m >>= f) s).calls = (m s).calls ++ rest := by
  rw [run_bind]
  unfold Prog.bind
  cases (m s).outcome with
  | ok a s1 => exact ⟨_, rfl⟩
  | trap => exact ⟨[], by simp⟩
  | hang => exact ⟨[], by simp⟩

theorem quietCalls_bind_left {σ α β : Type} (m : Prog σ α) (f : α → Prog σ β) (s : σ)
    (h : quietCalls ((m >>= f) s).calls = true) : quietCalls (m s).calls = true := by
  obtain ⟨rest, hr⟩ := calls_bind m f s
  rw [hr, quietCalls_append, Bool.and_eq_true] at h
  exact h.1

theorem quietCalls_bind_right {σ α β : Type} (m : Prog σ α) (f : α → Prog σ β) (s s1 : σ)
    (a : α) (hm : (m s).outcome = Outcome.ok a s1)
    (h : quietCalls ((m >>= f) s).calls = true) : quietCalls (f a s1).calls = true := by
  rw [run_bind] at h
  simp only [Prog.bind, hm, quietCalls_append, Bool.and_eq_true] at h
  exact h.2

theorem Sim_refl {σ α : Type} (m : Prog σ α) : Sim m m := fun _ _ => rfl

theorem Sim_bind {σ α β : Type} (m m2 : Prog σ α) (f f2 : α → Prog σ β)
    (hm : Sim m m2) (hf : ∀ a, Sim (f a) (f2 a)) : Sim (m >>= f) (m2 >>= f2) := by
  intro s h
  have h1 : m s = m2 s := hm s (quietCalls_bind_left m f s h)
  rw [run_bind, run_bind]
  unfold Prog.bind
  rw [← h1]
  cases ho : (m s).outcome with
  | ok a s1 =>
    have h2 : f a s1 = f2 a s1 := hf a s1 (quietCalls_bind_right m f s s1 a ho h)
    simp [h2]
  | trap => rfl
  | hang => rfl

theorem Sim_ite {σ α : Type} (c : Prop) [Decidable c] (a a2 b b2 : Prog σ α)
    (ha : Sim a a2) (hb : Sim b b2) : Sim (if c then a else b) (if c then a2 else b2) := by
  split
  · exact ha
  · exact hb

theorem Sim_GLClearError {σ : Type} (d : Driver σ) (fuel : Nat) :
    Sim (GLClearError d (fuel + 1)) (GLClearError (silenced d) (fuel + 1)) := by
  intro s h
  rw [GLClearError_quiet (silenced d) (silenced_quiet d)]
  by_cases he : (d.glGetError s).1 = GL_NO_ERROR
  · simp [GLClearError, run_bind, run_pure, Prog.bind, callRet, he, silenced]
  · exfalso
    have hc := quietCalls_bind_left _ _ s h
    simp [callRet, quietCalls, he] at hc

theorem Sim_GLLogCall {σ : Type} (d : Driver σ) (function file : List Char) (line : Nat) :
    Sim (GLLogCall d function file line) (GLLogCall (silenced d) function file line) := by
  intro s h
  rw [GLLogCall_quiet (silenced d) (silenced_quiet d)]
  by_cases he : (d.glGetError s).1 = GL_NO_ERROR
  · simp [GLLogCall, run_bind, run_pure, Prog.bind, callRet, he, silenced]
  · exfalso
    have hc := quietCalls_bind_left _ _ s h
    simp [callRet, quietCalls, he] at hc

theorem Sim_GLCall {σ α : Type} (d : Driver σ) (fuel : Nat) (file function : List Char)
    (line : Nat) (x : Prog σ α) :
    Sim (GLCall d (fuel + 1) file function line x)
      (GLCall (silenced d) (fuel + 1) file function line x) := by
  unfold GLCall
  refine Sim_bind _ _ _ _ (Sim_GLClearError d fuel) fun _ => ?_
  refine Sim_bind _ _ _ _ (Sim_refl x) fun r => ?_
  refine Sim_bind _ _ _ _ (Sim_GLLogCall d function file line) fun logged => ?_
  exact Sim_refl _

theorem Sim_CompileShader {σ : Type} (d : Driver σ) (fuel : Nat) (file : List Char)
    (type : Nat) (source : List Char) :
    Sim (CompileShader d (fuel + 1) file type source)
      (CompileShader (silenced d) (fuel + 1) file type source) := by
  unfold CompileShader
  refine Sim_bind _ _ _ _ (Sim_refl _) fun id => ?_
  refine Sim_bind _ _ _ _ (Sim_GLCall d fuel _ _ _ _) fun _ => ?_
  refine Sim_bind _ _ _ _ (Sim_GLCall d fuel _ _ _ _) fun _ => ?_
  refine Sim_bind _ _ _ _ (Sim_GLCall d fuel _ _ _ _) fun result => ?_
  refine Sim_ite _ _ _ _ _ ?_ (Sim_refl _)
  refine Sim_bind _ _ _ _ (Sim_GLCall d fuel _ _ _ _) fun errLength => ?_
  refine Sim_bind _ _ _ _ (Sim_GLCall d fuel _ _ _ _) fun _message => ?_
  refine Sim_bind _ _ _ _ (Sim_refl _) fun _ => ?_
  refine Sim_bind _ _ _ _ (Sim_GLCall d fuel _ _ _ _) fun _ => ?_
  exact Sim_refl _

theorem Sim_CreateShader {σ : Type} (d : Driver σ) (fuel : Nat) (file : List Char)
    (vertexShader fragmentShader : List Char) :
    Sim (CreateShader d (fuel + 1) file vertexShader fragmentShader)
      (CreateShader (silenced d) (fuel + 1) file vertexShader fragmentShader) := by
  unfold CreateShader
  refine Sim_bind _ _ _ _ (Sim_refl _) fun programID => ?_
  refine Sim_bind _ _ _ _ (Sim_CompileShader d fuel _ _ _) fun vs => ?_
  refine Sim_bind _ _ _ _ (Sim_CompileShader d fuel _ _ _) fun fs => ?_
  refine Sim_bind _ _ _ _ (Sim_GLCall d fuel _ _ _ _) fun _ => ?_
  refine Sim_bind _ _ _ _ (Sim_GLCall d fuel _ _ _ _) fun _ => ?_
  refine Sim_bind _ _ _ _ (Sim_GLCall d fuel _ _ _ _) fun _ => ?_
  refine Sim_bind _ _ _ _ (Sim_GLCall d fuel _ _ _ _) fun _ => ?_
  refine Sim_bind _ _ _ _ (Sim_GLCall d fuel _ _ _ _) fun _ => ?_
  refine Sim_bind _ _ _ _ (Sim_GLCall d fuel _ _ _ _) fun _ => ?_
  exact Sim_refl _

/-- The run of `CreateShader` when every `glGetError` of the run answers
`GL_NO_ERROR`. -/
theorem CreateShader_quiet_run {σ : Type} (d : Driver σ)
    (fuel : Nat) (file vertexShader fragmentShader : List Char) (s : σ)
    (hq : quietCalls (CreateShader d (fuel + 1) file vertexShader fragmentShader s).calls = true) :
    ∃ (vs fs : Nat) (sv sf s1 : σ),
      (CompileShader d (fuel + 1) file GL_VERTEX_SHADER vertexShader
        (d.glCreateProgram s).2).outcome = Outcome.ok vs sv ∧
      (CompileShader d (fuel + 1) file GL_FRAGMENT_SHADER fragmentShader sv).outcome =
        Outcome.ok fs sf ∧
      (reportsCompileFailure (CompileShader d (fuel + 1) file GL_VERTEX_SHADER vertexShader
        (d.glCreateProgram s).2).calls = true → vs = 0) ∧
      (reportsCompileFailure (CompileShader d (fuel + 1) file GL_VERTEX_SHADER vertexShader
        (d.glCreateProgram s).2).calls = false →
          vs = (d.glCreateShader GL_VERTEX_SHADER (d.glCreateProgram s).2).1) ∧
      (reportsCompileFailure (CompileShader d (fuel + 1) file GL_FRAGMENT_SHADER fragmentShader
        sv).calls = true → fs = 0) ∧
      (reportsCompileFailure (CompileShader d (fuel + 1) file GL_FRAGMENT_SHADER fragmentShader
        sv).calls = false → fs = (d.glCreateShader GL_FRAGMENT_SHADER sv).1) ∧
      (CreateShader d (fuel + 1) file vertexShader fragmentShader s).calls =
        Call.glCreateProgram (d.glCreateProgram s).1 ::
          ((CompileShader d (fuel + 1) file GL_VERTEX_SHADER vertexShader
              (d.glCreateProgram s).2).calls
            ++ ((CompileShader d (fuel + 1) file GL_FRAGMENT_SHADER fragmentShader sv).calls
            ++ (wrapped (Call.glAttachShader (d.glCreateProgram s).1 vs)
            ++ (wrapped (Call.glAttachShader (d.glCreateProgram s).1 fs)
            ++ (wrapped (Call.glLinkProgram (d.glCreateProgram s).1)
            ++ (wrapped (Call.glValidateProgram (d.glCreateProgram s).1)
            ++ (wrapped (Call.glDeleteShader vs)
            ++ wrapped (Call.glDeleteShader fs)))))))) ∧
      (CreateShader d (fuel + 1) file vertexShader fragmentShader s).outcome =
        Outcome.ok (d.glCreateProgram s).1 s1 := by
  have hsim := Sim_CreateShader d fuel file vertexShader fragmentShader s hq
  unfold CreateShader at hq
  have hq1 := quietCalls_bind_right _ _ s (d.glCreateProgram s).2 (d.glCreateProgram s).1 rfl hq
  have hqv := quietCalls_bind_left _ _ _ hq1
  have hcv := Sim_CompileShader d fuel file GL_VERTEX_SHADER vertexShader _ hqv
  obtain ⟨vs, sv, hv, hv1, hv2⟩ :=
    CompileShader_quiet_handle (silenced d) (silenced_quiet d) fuel file GL_VERTEX_SHADER
      vertexShader (d.glCreateProgram s).2
  have hq2 := quietCalls_bind_right _ _ _ sv vs (by rw [hcv]; exact hv) hq1
  have hqf := quietCalls_bind_left _ _ _ hq2
  have hcf := Sim_CompileShader d fuel file GL_FRAGMENT_SHADER fragmentShader _ hqf
  obtain ⟨fs, sf, hf, hf1, hf2⟩ :=
    CompileShader_quiet_handle (silenced d) (silenced_quiet d) fuel file GL_FRAGMENT_SHADER
      fragmentShader sv
  obtain ⟨s1, h⟩ := CreateShader_quiet (silenced d) (silenced_quiet d) fuel file vertexShader
    fragmentShader s vs fs sv sf hv hf
  refine ⟨vs, fs, sv, sf, s1, ?_, ?_, ?_, ?_, ?_, ?_, ?_, ?_⟩
  · rw [hcv]; exact hv
  · rw [hcf]; exact hf
  · rw [hcv]; exact hv1
  · rw [hcv]; exact hv2
  · rw [hcf]; exact hf1
  · rw [hcf]; exact hf2
  · rw [hsim, h, hcv, hcf]; rfl
  · rw [hsim, h]; rfl

/-! ## Properties of `ParseShader` -/

/-- C1: on every resource text, read line by line as `std::getline` does,
`ParseShader` returns as `VertexSource` the concatenation, in original order, of
`line ++ "\n"` for exactly the lines that do not contain `#shader` and whose
nearest preceding section-switching directive contains `vertex`, and as
`FragmentSource` the same for the lines whose nearest preceding
section-switching directive does not contain `vertex` and contains `fragment`;
a line with no preceding section-switching directive is in neither output, a
line containing `#shader` is in neither output (the marker does not even occur
inside an output), and the text
`"#shader vertex\nAAA\n#shader fragment\nBBB\n"` gives `"AAA\n"` and `"BBB\n"`. -/
theorem ParseShader_selects_section_lines (text : List Char) :
    (ParseShaderText text).VertexSource = selectedText vertexLine (getlines text) ∧
    (ParseShaderText text).FragmentSource = selectedText fragmentLine (getlines text) ∧
    (∀ pre l, nearestSwitch pre = none →
      vertexLine pre l = false ∧ fragmentLine pre l = false) ∧
    (∀ pre l, "#shader".toList <:+: l →
      vertexLine pre l = false ∧ fragmentLine pre l = false) ∧
    ¬ "#shader".toList <:+: (ParseShaderText text).VertexSource ∧
    ¬ "#shader".toList <:+: (ParseShaderText text).FragmentSource ∧
    ParseShaderText "#shader vertex\nAAA\n#shader fragment\nBBB\n".toList =
      ⟨"AAA\n".toList, "BBB\n".toList⟩ := by
  have hv : (ParseShaderText text).VertexSource = selectedText vertexLine (getlines text) := by
    simp [ParseShaderText, ParseShaderStream, ParseShaderLines, streamLines,
      parseLines_invariant, ParseState.result]
  have hf : (ParseShaderText text).FragmentSource =
      selectedText fragmentLine (getlines text) := by
    simp [ParseShaderText, ParseShaderStream, ParseShaderLines, streamLines,
      parseLines_invariant, ParseState.result]
  refine ⟨hv, hf, ?_, ?_, ?_, ?_, by decide⟩
  · intro pre l h
    simp [vertexLine, fragmentLine, h]
  · intro pre l h
    have hm : hasMarker l = true := decide_eq_true h
    simp [vertexLine, fragmentLine, hm]
  · rw [hv]
    apply marker_not_in_selectedText
    intro pre l h
    simp only [vertexLine, Bool.and_eq_true, Bool.not_eq_true'] at h
    exact h.1
  · rw [hf]
    apply marker_not_in_selectedText
    intro pre l h
    simp only [fragmentLine, Bool.and_eq_true, Bool.not_eq_true'] at h
    exact h.1

/-- C6: when the path given to `ParseShader` cannot be opened for reading, both
`VertexSource` and `FragmentSource` are empty, and the result is the very
result of parsing a file that exists and is empty. -/
theorem ParseShader_unopenable_path (fs : List Char → Option (List Char))
    (filepath : List Char) (h : fs filepath = none) :
    ParseShader fs filepath = ⟨[], []⟩ ∧
    ∀ (fs2 : List Char → Option (List Char)) (filepath2 : List Char),
      fs2 filepath2 = some [] → ParseShader fs filepath = ParseShader fs2 filepath2 := by
  constructor
  · simp [ParseShader, h]
    rfl
  · intro fs2 filepath2 h2
    simp [ParseShader, h, h2]
    rfl

/-- Instance of C6: a file system with no readable file at all. -/
theorem ParseShader_unopenable_path_witness :
    (fun _ : List Char => (none : Option (List Char))) "res/shaders/Basic.shader".toList = none ∧
    ParseShader (fun _ => none) "res/shaders/Basic.shader".toList = ⟨[], []⟩ :=
  ⟨rfl, (ParseShader_unopenable_path (fun _ => none) "res/shaders/Basic.shader".toList rfl).1⟩

/-- C7: a line `d` that contains `#shader` but neither `vertex` nor `fragment`
leaves the current section (and the buffers) unchanged, so that for all line
sequences `pre` and `post` parsing `pre ++ [d] ++ post` gives what parsing
`pre ++ post` gives, on line sequences and on the texts made of them. -/
theorem ParseShader_ignores_plain_directive (d : List Char)
    (hm : "#shader".toList <:+: d) (hv : ¬ "vertex".toList <:+: d)
    (hf : ¬ "fragment".toList <:+: d) :
    (∀ st : ParseState, parseLine st d = st) ∧
    (∀ pre post : List (List Char),
      ParseShaderLines (pre ++ [d] ++ post) = ParseShaderLines (pre ++ post)) ∧
    (∀ pre post : List (List Char), (∀ l ∈ pre ++ [d] ++ post, newline ∉ l) →
      ParseShaderText (unlines (pre ++ [d] ++ post)) =
        ParseShaderText (unlines (pre ++ post))) := by
  have hm2 : hasMarker d = true := decide_eq_true hm
  have hv2 : hasVertex d = false := decide_eq_false hv
  have hf2 : hasFragment d = false := decide_eq_false hf
  have hstep : ∀ st : ParseState, parseLine st d = st := fun st =>
    parseLine_plain_directive st d hm2 hv2 hf2
  have hlines : ∀ pre post : List (List Char),
      ParseShaderLines (pre ++ [d] ++ post) = ParseShaderLines (pre ++ post) := by
    intro pre post
    unfold ParseShaderLines
    rw [parseLines_append, parseLines_append, parseLines_append]
    rw [show parseLines (parseLines ParseState.init pre) [d] =
      parseLine (parseLines ParseState.init pre) d from rfl, hstep]
  refine ⟨hstep, hlines, ?_⟩
  intro pre post hnl
  have hnl2 : ∀ l ∈ pre ++ post, newline ∉ l := by
    intro l hl
    apply hnl
    simp only [List.mem_append, List.mem_singleton] at hl ⊢
    tauto
  simp only [ParseShaderText, ParseShaderStream, streamLines]
  rw [getlines_unlines _ hnl, getlines_unlines _ hnl2]
  exact hlines pre post

/-- Instance of C7: the directive `#shader geometry` inside a two-section text. -/
theorem ParseShader_ignores_plain_directive_witness :
    "#shader".toList <:+: "#shader geometry".toList ∧
    ¬ "vertex".toList <:+: "#shader geometry".toList ∧
    ¬ "fragment".toList <:+: "#shader geometry".toList ∧
    ParseShaderLines (["#shader vertex".toList, "A".toList] ++ ["#shader geometry".toList]
        ++ ["B".toList]) =
      ParseShaderLines (["#shader vertex".toList, "A".toList] ++ ["B".toList]) :=
  ⟨by decide, by decide, by decide,
    (ParseShader_ignores_plain_directive "#shader geometry".toList (by decide) (by decide)
      (by decide)).2.1 _ _⟩

/-- C8: a line `d` that contains `#shader`, `vertex` and `fragment` sets the
section to `VERTEX` whatever the section was; the lines that follow it up to
the next section-switching directive go, when they do not contain `#shader`, to
`VertexSource`, each followed by a line terminator, and `FragmentSource` stays
as it was.  The text `"#shader fragment vertex\nX\n"` gives `"X\n"` and `""`. -/
theorem ParseShader_both_keywords_select_vertex (d : List Char)
    (hm : "#shader".toList <:+: d) (hv : "vertex".toList <:+: d)
    (_hf : "fragment".toList <:+: d) :
    (∀ st : ParseState, parseLine st d = { st with type := ShaderType.VERTEX }) ∧
    (∀ (st : ParseState) (mid : List (List Char)), (∀ l ∈ mid, isSwitch l = false) →
      parseLines st (d :: mid) =
        ⟨ShaderType.VERTEX, st.ss0 ++ unlines (mid.filter fun l => !hasMarker l), st.ss1⟩) ∧
    ParseShaderText "#shader fragment vertex\nX\n".toList = ⟨"X\n".toList, []⟩ := by
  have hm2 : hasMarker d = true := decide_eq_true hm
  have hv2 : hasVertex d = true := decide_eq_true hv
  refine ⟨fun st => parseLine_vertex_directive st d hm2 hv2, ?_, by decide⟩
  intro st mid hmid
  rw [parseLines_cons, parseLine_vertex_directive st d hm2 hv2]
  exact parseLines_vertex_run st.ss0 st.ss1 mid hmid

/-- Instance of C8: the directive `#shader fragment vertex` met in fragment mode. -/
theorem ParseShader_both_keywords_select_vertex_witness :
    "#shader".toList <:+: "#shader fragment vertex".toList ∧
    "vertex".toList <:+: "#shader fragment vertex".toList ∧
    "fragment".toList <:+: "#shader fragment vertex".toList ∧
    parseLine ⟨ShaderType.FRAGMENT, [], "B\n".toList⟩ "#shader fragment vertex".toList =
      ⟨ShaderType.VERTEX, [], "B\n".toList⟩ :=
  ⟨by decide, by decide, by decide,
    (ParseShader_both_keywords_select_vertex "#shader fragment vertex".toList (by decide)
      (by decide) (by decide)).1 _⟩

/-- C9: a resource text none of whose lines contains `#shader` gives
`VertexSource = ""` and `FragmentSource = ""`, whatever its lines contain. -/
theorem ParseShader_without_directive_is_empty (text : List Char)
    (h : ∀ l ∈ getlines text, ¬ "#shader".toList <:+: l) :
    ParseShaderText text = ⟨[], []⟩ := by
  have h2 : ∀ l ∈ getlines text, hasMarker l = false := by
    exact fun l hl => decide_eq_false (h l hl)
  simp only [ParseShaderText, ParseShaderStream, streamLines, ParseShaderLines, ParseState.init]
  rw [parseLines_no_marker [] [] _ h2]
  rfl

/-- Instance of C9: the text `"no directives here\n"`, and a text whose lines
name both stages without the marker. -/
theorem ParseShader_without_directive_is_empty_witness :
    (∀ l ∈ getlines "no directives here\n".toList, ¬ "#shader".toList <:+: l) ∧
    ParseShaderText "no directives here\n".toList = ⟨[], []⟩ :=
  ⟨by decide, ParseShader_without_directive_is_empty "no directives here\n".toList (by decide)⟩

/-! ## Properties of `CompileShader` and `CreateShader` -/

/-- C2, as stated, fails: on a driver that reports a compile failure for the
vertex stage, `CreateShader` returns the program handle 1 it got from
`glCreateProgram`, not the sentinel 0. -/
theorem CreateShader_compile_failure_returns_program :
    reportsCompileFailure
      (CreateShader badVertexDriver 1 "Application.cpp".toList "bad".toList "good".toList
        SampleState.init).calls = true ∧
    (CreateShader badVertexDriver 1 "Application.cpp".toList "bad".toList "good".toList
        SampleState.init).outcome =
      Outcome.ok 1 ⟨3, [(3, "good".toList), (2, "bad".toList)]⟩ := by
  decide

/-- C2, amended: whenever `CreateShader` returns, with or without a reported
compile failure, the value returned is the handle obtained from
`glCreateProgram`; and it does return, with that handle, when the driver's
error queue stays empty (every `glGetError` of the run answers `GL_NO_ERROR`). -/
theorem CreateShader_returns_glCreateProgram_handle {σ : Type} (d : Driver σ) (fuel : Nat)
    (file vertexShader fragmentShader : List Char) (s : σ) :
    (∀ a s1, (CreateShader d fuel file vertexShader fragmentShader s).outcome = Outcome.ok a s1 →
      a = (d.glCreateProgram s).1) ∧
    (quietCalls (CreateShader d fuel file vertexShader fragmentShader s).calls = true →
      0 < fuel →
      ∃ s1, (CreateShader d fuel file vertexShader fragmentShader s).outcome =
        Outcome.ok (d.glCreateProgram s).1 s1) := by
  constructor
  · intro a s1 h
    unfold CreateShader at h
    obtain ⟨p, t1, hp, h⟩ := run_bind_outcome_ok _ _ _ _ _ h
    obtain ⟨_, t2, -, h⟩ := run_bind_outcome_ok _ _ _ _ _ h
    obtain ⟨_, t3, -, h⟩ := run_bind_outcome_ok _ _ _ _ _ h
    obtain ⟨_, t4, -, h⟩ := run_bind_outcome_ok _ _ _ _ _ h
    obtain ⟨_, t5, -, h⟩ := run_bind_outcome_ok _ _ _ _ _ h
    obtain ⟨_, t6, -, h⟩ := run_bind_outcome_ok _ _ _ _ _ h
    obtain ⟨_, t7, -, h⟩ := run_bind_outcome_ok _ _ _ _ _ h
    obtain ⟨_, t8, -, h⟩ := run_bind_outcome_ok _ _ _ _ _ h
    obtain ⟨_, t9, -, h⟩ := run_bind_outcome_ok _ _ _ _ _ h
    simp only [callRet, Outcome.ok.injEq] at hp
    simp only [run_pure, Outcome.ok.injEq] at h
    rw [← h.1, ← hp.1]
  · intro hq hfuel
    obtain ⟨n, rfl⟩ : ∃ n, fuel = n + 1 := ⟨fuel - 1, by omega⟩
    obtain ⟨vs, fs, sv, sf, s1, -, -, -, -, -, -, -, h⟩ :=
      CreateShader_quiet_run d n file vertexShader fragmentShader s hq
    exact ⟨s1, h⟩

/-- Instance of amended C2: the vertex stage fails to compile and the handle
of the program, 1, is returned. -/
theorem CreateShader_returns_glCreateProgram_handle_witness :
    quietCalls (CreateShader badVertexDriver 1 "Application.cpp".toList "bad".toList
      "good".toList SampleState.init).calls = true ∧ 0 < 1 ∧
    (∃ s1, (CreateShader badVertexDriver 1 "Application.cpp".toList "bad".toList "good".toList
        SampleState.init).outcome = Outcome.ok 1 s1) ∧
    (CreateShader badVertexDriver 1 "Application.cpp".toList "bad".toList "good".toList
        SampleState.init).outcome =
      Outcome.ok 1 ⟨3, [(3, "good".toList), (2, "bad".toList)]⟩ ∧
    1 = (badVertexDriver.glCreateProgram SampleState.init).1 :=
  ⟨by decide, by decide,
    (CreateShader_returns_glCreateProgram_handle badVertexDriver 1 "Application.cpp".toList
      "bad".toList "good".toList SampleState.init).2 (by decide) (by decide),
    by decide,
    (CreateShader_returns_glCreateProgram_handle badVertexDriver 1 "Application.cpp".toList
      "bad".toList "good".toList SampleState.init).1 1
      ⟨3, [(3, "good".toList), (2, "bad".toList)]⟩ (by decide)⟩

/-- C3, as stated, fails: the first call of `CreateShader`, `glCreateProgram`,
is followed at once by `glCreateShader`, itself followed by a read of
`GLClearError`, not by the check of `GLLogCall`; and on a driver whose
`glCreateShader` raises an error, `CompileShader` reads that error away in
`GLClearError` and returns without having written anything. -/
theorem CreateShader_creation_calls_are_unchecked :
    (CreateShader badVertexDriver 1 "Application.cpp".toList "bad".toList "good".toList
        SampleState.init).calls.take 3 =
      [Call.glCreateProgram 1, Call.glCreateShader GL_VERTEX_SHADER 2,
        Call.glGetError Site.clear GL_NO_ERROR] ∧
    checkedAfter isErrorRead
      (CreateShader badVertexDriver 1 "Application.cpp".toList "bad".toList "good".toList
        SampleState.init).calls = false ∧
    (CompileShader queueDriver 2 "Application.cpp".toList GL_VERTEX_SHADER "good".toList
        []).calls.take 4 =
      [Call.glCreateShader GL_VERTEX_SHADER 0, Call.glGetError Site.clear 1280,
        Call.glGetError Site.clear GL_NO_ERROR, Call.glShaderSource 0 "good".toList] ∧
    (CompileShader queueDriver 2 "Application.cpp".toList GL_VERTEX_SHADER "good".toList
        []).out = [] ∧
    (CompileShader queueDriver 2 "Application.cpp".toList GL_VERTEX_SHADER "good".toList
        []).outcome = Outcome.ok 0 [] := by
  decide

/-- C3, amended: in `CompileShader` and in `CreateShader`, on every driver and
every execution path (returning, stopped in `__debugbreak()`, or still in the
loop of `GLClearError`), each driver call other than `glCreateShader`,
`glCreateProgram` and the reads of the error queue comes right after a read by
`GLClearError` that found the queue empty and right before the check of
`GLLogCall`, no other driver call in between. -/
theorem GLCall_brackets_every_wrapped_call {σ : Type} (d : Driver σ) (fuel : Nat)
    (file : List Char) (type : Nat) (source vertexShader fragmentShader : List Char) (s : σ) :
    bracketedFrom unchecked none (CompileShader d fuel file type source s).calls = true ∧
    checkedAfter unchecked (CompileShader d fuel file type source s).calls = true ∧
    bracketedFrom unchecked none
      (CreateShader d fuel file vertexShader fragmentShader s).calls = true ∧
    checkedAfter unchecked (CreateShader d fuel file vertexShader fragmentShader s).calls = true :=
  ⟨Bracketed_CompileShader d fuel file type source s,
    checkedAfter_of_bracketedFrom _ _ _ (Bracketed_CompileShader d fuel file type source s),
    Bracketed_CreateShader d fuel file vertexShader fragmentShader s,
    checkedAfter_of_bracketedFrom _ _ _
      (Bracketed_CreateShader d fuel file vertexShader fragmentShader s)⟩

/-- C4: provided the driver's error queue stays empty (every `glGetError` of
the run answers `GL_NO_ERROR`), whatever the sources and whatever the compile
outcome of each stage, `CreateShader` does not stop: both stages are compiled,
a stage reported as failed giving the handle 0 and the other the name from
`glCreateShader`; then, each inside `GLCall`, come attach(program, vs),
attach(program, fs), link(program), validate(program), delete-shader(vs),
delete-shader(fs), and nothing else; and the value returned is the handle
obtained from `glCreateProgram` at the start. -/
theorem CreateShader_continues_after_compile_failure {σ : Type} (d : Driver σ)
    (fuel : Nat) (file vertexShader fragmentShader : List Char) (s : σ)
    (hq : quietCalls (CreateShader d (fuel + 1) file vertexShader fragmentShader s).calls = true) :
    ∃ (vs fs : Nat) (sv sf s1 : σ),
      (CompileShader d (fuel + 1) file GL_VERTEX_SHADER vertexShader
        (d.glCreateProgram s).2).outcome = Outcome.ok vs sv ∧
      (CompileShader d (fuel + 1) file GL_FRAGMENT_SHADER fragmentShader sv).outcome =
        Outcome.ok fs sf ∧
      (reportsCompileFailure (CompileShader d (fuel + 1) file GL_VERTEX_SHADER vertexShader
        (d.glCreateProgram s).2).calls = true → vs = 0) ∧
      (reportsCompileFailure (CompileShader d (fuel + 1) file GL_VERTEX_SHADER vertexShader
        (d.glCreateProgram s).2).calls = false →
          vs = (d.glCreateShader GL_VERTEX_SHADER (d.glCreateProgram s).2).1) ∧
      (reportsCompileFailure (CompileShader d (fuel + 1) file GL_FRAGMENT_SHADER fragmentShader
        sv).calls = true → fs = 0) ∧
      (reportsCompileFailure (CompileShader d (fuel + 1) file GL_FRAGMENT_SHADER fragmentShader
        sv).calls = false → fs = (d.glCreateShader GL_FRAGMENT_SHADER sv).1) ∧
      (CreateShader d (fuel + 1) file vertexShader fragmentShader s).calls =
        Call.glCreateProgram (d.glCreateProgram s).1 ::
          ((CompileShader d (fuel + 1) file GL_VERTEX_SHADER vertexShader
              (d.glCreateProgram s).2).calls
            ++ ((CompileShader d (fuel + 1) file GL_FRAGMENT_SHADER fragmentShader sv).calls
            ++ (wrapped (Call.glAttachShader (d.glCreateProgram s).1 vs)
            ++ (wrapped (Call.glAttachShader (d.glCreateProgram s).1 fs)
            ++ (wrapped (Call.glLinkProgram (d.glCreateProgram s).1)
            ++ (wrapped (Call.glValidateProgram (d.glCreateProgram s).1)
            ++ (wrapped (Call.glDeleteShader vs)
            ++ wrapped (Call.glDeleteShader fs)))))))) ∧
      (CreateShader d (fuel + 1) file vertexShader fragmentShader s).outcome =
        Outcome.ok (d.glCreateProgram s).1 s1 :=
  CreateShader_quiet_run d fuel file vertexShader fragmentShader s hq

/-- Instance of C4: the vertex stage fails, the fragment stage compiles; the
calls that are not reads of the error queue, from the first attach on, are the
six of the claim with the handles 0 and 3, and 1 is returned. -/
theorem CreateShader_continues_after_compile_failure_witness :
    quietCalls (CreateShader badVertexDriver 1 "Application.cpp".toList "bad".toList
      "good".toList SampleState.init).calls = true ∧
    ((CreateShader badVertexDriver 1 "Application.cpp".toList "bad".toList "good".toList
        SampleState.init).calls.filter fun c => !isErrorRead c).drop 12 =
      [Call.glAttachShader 1 0, Call.glAttachShader 1 3, Call.glLinkProgram 1,
        Call.glValidateProgram 1, Call.glDeleteShader 0, Call.glDeleteShader 3] ∧
    ∃ s1, (CreateShader badVertexDriver 1 "Application.cpp".toList "bad".toList "good".toList
        SampleState.init).outcome = Outcome.ok 1 s1 :=
  ⟨by decide, by decide,
    (CreateShader_continues_after_compile_failure badVertexDriver 0
      "Application.cpp".toList "bad".toList "good".toList SampleState.init (by decide)).elim
      fun _ h => h.elim fun _ h => h.elim fun _ h => h.elim fun _ h => h.elim fun s1 h =>
        ⟨s1, h.2.2.2.2.2.2.2⟩⟩

/-- C5 fails on the code: the vertex stage fails to compile with the
diagnostic `"0:1: unexpected token"`, which `CompileShader` retrieves from the
driver; what it writes is `"Failed to compile vertex shader!\n"`, which names
the stage kind and does not contain the diagnostic. -/
theorem CompileShader_does_not_write_diagnostic :
    Call.glGetShaderInfoLog 2 22 "0:1: unexpected token".toList ∈
      (CompileShader badVertexDriver 1 "Application.cpp".toList GL_VERTEX_SHADER "bad".toList
        ⟨1, []⟩).calls ∧
    (CompileShader badVertexDriver 1 "Application.cpp".toList GL_VERTEX_SHADER "bad".toList
        ⟨1, []⟩).out = "Failed to compile vertex shader!\n".toList ∧
    "vertex".toList <:+:
      (CompileShader badVertexDriver 1 "Application.cpp".toList GL_VERTEX_SHADER "bad".toList
        ⟨1, []⟩).out ∧
    ¬ "0:1: unexpected token".toList <:+:
      (CompileShader badVertexDriver 1 "Application.cpp".toList GL_VERTEX_SHADER "bad".toList
        ⟨1, []⟩).out := by
  decide

/-- C10 fails on the code: the release call of `CompileShader` on a compile
failure, line 121, is `glDeleteProgram` on the stage handle it created.  With
the Builder's program named 1 and the failing vertex stage named 2, the call
issued is `glDeleteProgram 2`; no call of `CompileShader`, nor of the whole
`CreateShader`, releases the program 1.  On a driver that keeps shaders and
programs apart that call raises error 1282, the check of `GLLogCall` finds it,
and `CompileShader` stops in `__debugbreak()` instead of returning 0; so does
`CreateShader`. -/
theorem CompileShader_does_not_release_program :
    (badVertexDriver.glCreateProgram SampleState.init) = (1, ⟨1, []⟩) ∧
    reportsCompileFailure
      (CompileShader badVertexDriver 1 "Application.cpp".toList GL_VERTEX_SHADER "bad".toList
        ⟨1, []⟩).calls = true ∧
    Call.glCreateShader GL_VERTEX_SHADER 2 ∈
      (CompileShader badVertexDriver 1 "Application.cpp".toList GL_VERTEX_SHADER "bad".toList
        ⟨1, []⟩).calls ∧
    Call.glDeleteProgram 2 ∈
      (CompileShader badVertexDriver 1 "Application.cpp".toList GL_VERTEX_SHADER "bad".toList
        ⟨1, []⟩).calls ∧
    Call.glDeleteProgram 1 ∉
      (CompileShader badVertexDriver 1 "Application.cpp".toList GL_VERTEX_SHADER "bad".toList
        ⟨1, []⟩).calls ∧
    Call.glDeleteProgram 1 ∉
      (CreateShader badVertexDriver 1 "Application.cpp".toList "bad".toList "good".toList
        SampleState.init).calls ∧
    (strictDriver.glCreateProgram StrictState.init) = (1, ⟨1, [], [1], []⟩) ∧
    (CompileShader strictDriver 1 "Application.cpp".toList GL_VERTEX_SHADER "bad".toList
        ⟨1, [], [1], []⟩).calls.drop 16 =
      [Call.glGetError Site.clear GL_NO_ERROR, Call.glDeleteProgram 2,
        Call.glGetError Site.log 1282] ∧
    (CompileShader strictDriver 1 "Application.cpp".toList GL_VERTEX_SHADER "bad".toList
        ⟨1, [], [1], []⟩).outcome = Outcome.trap ∧
    (CompileShader strictDriver 1 "Application.cpp".toList GL_VERTEX_SHADER "bad".toList
        ⟨1, [], [1], []⟩).out =
      ("Failed to compile vertex shader!\n[OpenGL Error] (1282): glDeleteProgram(id) : 121"
        ++ "\nFile : Application.cpp\n").toList ∧
    (CreateShader strictDriver 1 "Application.cpp".toList "bad".toList "good".toList
        StrictState.init).outcome = Outcome.trap := by
  decide

end Wroggle
